import Mathlib

/-!
# Verification of the Skybrush MAVLink network core

A shallow embedding of `flockwave/server/ext/mavlink/network.py` and
`flockwave/server/ext/sidekick.py`: Python dictionaries become association
lists, Python values occurring in MAVLink message fields become an inductive
`PyVal`, futures are identified by unique numeric ids (a fresh `Future()`
object compares equal only to itself in Python, so identity is all the
embedding needs), and every stateful method becomes a pure function from the
relevant state to the new state plus the observable actions it performed
(transport sends, log lines, future fulfilments).
-/

namespace Skybrush

/-- A Python value as it occurs in MAVLink message fields and in the `params`
dictionaries handed to `expect_packet`.  `str` carries the character data of a
Python string; `bytes` carries the raw byte values; `none` is Python `None`
(also the default returned by `getattr(message, name, None)`). -/
inductive PyVal where
  | int : Int → PyVal
  | str : String → PyVal
  | bytes : List Nat → PyVal
  | none : PyVal
deriving DecidableEq, Repr

/-- Whether a byte is a UTF-8 continuation byte (`0x80..0xBF`). -/
def isUtf8Cont (b : Nat) : Bool := 0x80 ≤ b && b ≤ 0xBF

/-- Strict UTF-8 decoding of a byte sequence into Unicode code points, as
performed by Python's `bytes.decode("utf-8")`: rejects stray continuation
bytes, overlong encodings, surrogate code points, code points above
`0x10FFFF` and truncated sequences.  Returns `Option.none` exactly when the
Python call raises (`UnicodeDecodeError`, a subclass of `ValueError`). -/
def utf8DecodeAux : List Nat → Option (List Nat)
  | [] => some []
  | b :: rest =>
    if b ≤ 0x7F then
      (utf8DecodeAux rest).map (fun cs => b :: cs)
    else if b ≤ 0xBF then
      Option.none
    else if b ≤ 0xDF then
      match rest with
      | b1 :: rest1 =>
        if isUtf8Cont b1 then
          let cp := (b - 0xC0) * 0x40 + (b1 - 0x80)
          if 0x80 ≤ cp then (utf8DecodeAux rest1).map (fun cs => cp :: cs)
          else Option.none
        else Option.none
      | [] => Option.none
    else if b ≤ 0xEF then
      match rest with
      | b1 :: b2 :: rest2 =>
        if isUtf8Cont b1 && isUtf8Cont b2 then
          let cp := (b - 0xE0) * 0x1000 + (b1 - 0x80) * 0x40 + (b2 - 0x80)
          if 0x800 ≤ cp && !(0xD800 ≤ cp && cp ≤ 0xDFFF) then
            (utf8DecodeAux rest2).map (fun cs => cp :: cs)
          else Option.none
        else Option.none
      | _ => Option.none
    else if b ≤ 0xF4 then
      match rest with
      | b1 :: b2 :: b3 :: rest3 =>
        if isUtf8Cont b1 && isUtf8Cont b2 && isUtf8Cont b3 then
          let cp :=
            (b - 0xF0) * 0x40000 + (b1 - 0x80) * 0x1000 +
              (b2 - 0x80) * 0x40 + (b3 - 0x80)
          if 0x10000 ≤ cp && cp ≤ 0x10FFFF then
            (utf8DecodeAux rest3).map (fun cs => cp :: cs)
          else Option.none
        else Option.none
      | _ => Option.none
    else
      Option.none

/-- `value.decode("utf-8")` on a `bytes` value: the resulting Python string,
or `Option.none` when decoding raises. -/
def utf8Decode (bs : List Nat) : Option String :=
  (utf8DecodeAux bs).map (fun cs => String.mk (cs.map Char.ofNat))

/-- An inbound MAVLink message as the dispatch loop sees it: its type string
(`message.get_type()`), source system and component ids, and its named fields
(`getattr` targets). -/
structure MAVLinkMessage where
  msgType : String
  srcSystem : Nat
  srcComponent : Nat
  fields : List (String × PyVal)
deriving DecidableEq, Repr

/-- `getattr(message, name, None)`. -/
def getField (m : MAVLinkMessage) (name : String) : PyVal :=
  match m.fields.find? (fun p => p.1 == name) with
  | some p => p.2
  | Option.none => PyVal.none

/-- The `params` argument of `expect_packet` / the predicate stored in a
matcher entry: Python `None` (wildcard), a field dictionary, or a callable. -/
inductive Params where
  | wildcard : Params
  | fields : List (String × PyVal) → Params
  | func : (MAVLinkMessage → Bool) → Params

/-- One entry of the per-type matcher list: the tuple
`(system_id, params, future)` appended by `expect_packet`.  The future is
identified by a unique id: Python `Future` objects compare by identity and
every scope creates a fresh one. -/
structure MatcherEntry where
  systemId : Option Nat
  params : Params
  future : Nat

/-- The matcher-table value `defaultdict(list)` keyed by message type. -/
abbrev MatcherTable := List (String × List MatcherEntry)

/-- A Python dictionary read, `d.get(k)`: dictionaries are embedded as
association lists with unique keys, in insertion order. -/
def dictGet {κ α : Type} [BEq κ] (l : List (κ × α)) (k : κ) : Option α :=
  match l.find? (fun p => p.1 == k) with
  | some p => some p.2
  | Option.none => Option.none

/-- A Python dictionary write, `d[k] = v`: replace the value in place when
the key exists (keeping its position), append otherwise. -/
def dictSet {κ α : Type} [BEq κ] (l : List (κ × α)) (k : κ) (v : α) :
    List (κ × α) :=
  if (l.find? (fun p => p.1 == k)).isSome then
    l.map (fun p => if p.1 == k then (p.1, v) else p)
  else
    l ++ [(k, v)]

/-- `self._matchers[type_str]` (a `defaultdict(list)` read: missing keys give
the empty list). -/
def getMatchers (t : MatcherTable) (ty : String) : List MatcherEntry :=
  (dictGet t ty).getD []

/-- The errors that the embedded methods can raise. -/
inductive PyError where
  | attributeError : PyError
  | runtimeErrorNoAddress : PyError
deriving DecidableEq, Repr

/-- The bytes-to-str normalisation `expect_packet` applies to each value of a
non-callable `params` dictionary (lines 148-154 of `network.py`): a `bytes`
value is replaced by its decoded UTF-8 form; a `ValueError` during decoding is
swallowed, leaving the value unchanged; other values are untouched. -/
def convertParamValue (v : PyVal) : PyVal :=
  match v with
  | PyVal.bytes bs =>
    match utf8Decode bs with
    | some s => PyVal.str s
    | Option.none => PyVal.bytes bs
  | v => v

/-- The in-place rewrite of the whole `params` dictionary. -/
def convertParamFields (ps : List (String × PyVal)) : List (String × PyVal) :=
  ps.map (fun p => (p.1, convertParamValue p.2))

/-- The observable outcome of one full `expect_packet` scope over the
per-type matcher list it manipulates. -/
structure ExpectPacketResult where
  /-- The caller's `params` object after the call: `expect_packet` mutates
  the dictionary in place, and nothing restores it on scope exit. -/
  params : Params
  /-- The per-type matcher list while the scope is active (after the
  `matchers.append(item)` on entry). -/
  matchersDuring : List MatcherEntry
  /-- The per-type matcher list after the `finally` block has run
  (`matchers.pop(matchers.index(item))`). -/
  matchersAfter : List MatcherEntry

/-- Scope entry of `expect_packet` (lines 144-160 of `network.py`): normalise
the `params` dictionary unless it is callable, create a fresh future, and
append `(system_id, params, future)` to the per-type matcher list.  When
`params` is `None`, the guard `not callable(params)` is true and the loop
header `params.items()` raises `AttributeError` (`None` has no `items`),
before any matcher is installed. -/
def expectPacketEnter (systemId : Option Nat) (params : Params) (fid : Nat)
    (matchers : List MatcherEntry) :
    Except PyError (Params × List MatcherEntry) :=
  match params with
  | Params.func f =>
    Except.ok (Params.func f, matchers ++ [⟨systemId, Params.func f, fid⟩])
  | Params.wildcard => Except.error PyError.attributeError
  | Params.fields ps =>
    let ps1 := convertParamFields ps
    Except.ok (Params.fields ps1, matchers ++ [⟨systemId, Params.fields ps1, fid⟩])

/-- Scope exit of `expect_packet`: `matchers.pop(matchers.index(item))`.
Tuple equality in Python decides `index` by the identity of the `Future`
member (futures define no `__eq__`), so the first - and, futures being fresh,
only - entry carrying this scope's future is removed. -/
def removeMatcher (fid : Nat) : List MatcherEntry → List MatcherEntry
  | [] => []
  | e :: rest => if e.future == fid then rest else e :: removeMatcher fid rest

/-- A whole `expect_packet` scope: entry followed (after the caller's block)
by the `finally` removal.  Fulfilment of the future does not touch the table,
so the result is independent of whether the future was resolved. -/
def expectPacketScope (systemId : Option Nat) (params : Params) (fid : Nat)
    (matchers : List MatcherEntry) : Except PyError ExpectPacketResult :=
  match expectPacketEnter systemId params fid matchers with
  | Except.error e => Except.error e
  | Except.ok (ps1, ms1) => Except.ok ⟨ps1, ms1, removeMatcher fid ms1⟩

/-- The `finally` block of `MAVLinkNetwork.run` (lines 256-259): every future
still present in the matcher table is cancelled.  The returned list is the
sequence of `future.cancel()` calls. -/
def runCleanupCancels (table : MatcherTable) : List Nat :=
  (table.map (fun p => p.2.map (fun e => e.future))).flatten

/-- `MAVComponent.AUTOPILOT1` of the MAVLink standard (value 1); the enums
module is external to this slice, the value is the MAVLink-defined constant. -/
def AUTOPILOT1 : Nat := 1

/-- Matcher evaluation for one inbound message, lines 473-484 of
`network.py`: the source-system filter is checked first; then a callable
predicate is applied; a `None` predicate matches everything; a field
dictionary matches when `getattr(message, name, None) == value` for every
pair. -/
def matchParams : Params → MAVLinkMessage → Bool
  | Params.func f, m => f m
  | Params.wildcard, _ => true
  | Params.fields ps, m =>
    ps.all (fun p => getField m p.1 == p.2)

/-- The full per-entry evaluation including the source-system filter (line
474 of `network.py`): when the filter is set and the message's source system
differs, the entry does not match; otherwise the predicate decides. -/
def matcherMatches (systemId : Option Nat) (params : Params)
    (m : MAVLinkMessage) : Bool :=
  match systemId with
  | some sid =>
    if m.srcSystem ≠ sid then false else matchParams params m
  | Option.none => matchParams params m

/-- Names for the per-type handlers bound in the local `handlers` dictionary
of `_handle_inbound_messages`; the bodies are modelled separately
(`findUavFromMessage` & co.), here only presence in the table matters for
dispatch. -/
inductive Handler where
  | nop
  | autopilotVersion
  | data16
  | globalPositionInt
  | gpsRawInt
  | heartbeat
  | statustext
  | sysStatus
  | timesync
deriving DecidableEq, Repr

/-- The initial `handlers` dictionary (lines 430-456 of `network.py`). -/
def initialHandlers : List (String × Handler) :=
  [("AUTOPILOT_VERSION", Handler.autopilotVersion),
   ("BAD_DATA", Handler.nop),
   ("COMMAND_ACK", Handler.nop),
   ("DATA16", Handler.data16),
   ("FILE_TRANSFER_PROTOCOL", Handler.nop),
   ("GLOBAL_POSITION_INT", Handler.globalPositionInt),
   ("GPS_GLOBAL_ORIGIN", Handler.nop),
   ("GPS_RAW_INT", Handler.gpsRawInt),
   ("HEARTBEAT", Handler.heartbeat),
   ("HOME_POSITION", Handler.nop),
   ("HWSTATUS", Handler.nop),
   ("LOCAL_POSITION_NED", Handler.nop),
   ("MEMINFO", Handler.nop),
   ("MISSION_ACK", Handler.nop),
   ("MISSION_COUNT", Handler.nop),
   ("MISSION_CURRENT", Handler.nop),
   ("MISSION_ITEM_INT", Handler.nop),
   ("MISSION_REQUEST", Handler.nop),
   ("NAV_CONTROLLER_OUTPUT", Handler.nop),
   ("PARAM_VALUE", Handler.nop),
   ("POSITION_TARGET_GLOBAL_INT", Handler.nop),
   ("POWER_STATUS", Handler.nop),
   ("STATUSTEXT", Handler.statustext),
   ("SYS_STATUS", Handler.sysStatus),
   ("TIMESYNC", Handler.timesync)]

/-- `handlers.get(type)`. -/
def lookupHandler (hs : List (String × Handler)) (ty : String) :
    Option Handler :=
  dictGet hs ty

/-- The warning text logged for an unknown message type
(`f"Unhandled MAVLink message type: {type}"`). -/
def unhandledWarning (ty : String) : String :=
  "Unhandled MAVLink message type: " ++ ty

/-- The state threaded through the inbound dispatch loop: the matcher table
(read-only here: resolution never removes entries), the mutable local
`handlers` dictionary, the warnings emitted via `log.warn`, and the
`future.set_result(message)` calls performed, in order. -/
structure DispatchState where
  matchers : MatcherTable
  handlers : List (String × Handler)
  warnings : List String
  fulfilled : List (Nat × MAVLinkMessage)

/-- One iteration of the `async for` body of `_handle_inbound_messages`
(lines 460-502 of `network.py`): drop non-autopilot components; resolve every
matching pending matcher; then dispatch to the per-type handler, logging a
one-time warning and installing `nop` when the type is unknown. -/
def handleInboundMessage (st : DispatchState) (m : MAVLinkMessage) :
    DispatchState :=
  if m.srcComponent ≠ AUTOPILOT1 then st
  else
    let ty := m.msgType
    let newFulfilled :=
      (getMatchers st.matchers ty).filterMap
        (fun e =>
          if matcherMatches e.systemId e.params m then some (e.future, m)
          else Option.none)
    let st1 := { st with fulfilled := st.fulfilled ++ newFulfilled }
    match lookupHandler st1.handlers ty with
    | some _ => st1
    | Option.none =>
      { st1 with
        warnings := st1.warnings ++ [unhandledWarning ty],
        handlers := st1.handlers ++ [(ty, Handler.nop)] }

/-- Running the dispatch loop over a sequence of inbound messages. -/
def dispatchRun (st : DispatchState) (ms : List MAVLinkMessage) :
    DispatchState :=
  ms.foldl handleInboundMessage st

/-- The configuration record a network is created from (spec §6): `id`,
`system_id`, `id_format`, `packet_loss`, and connection URIs. -/
structure MAVLinkNetworkSpecification where
  id : String
  systemId : Nat
  idFormat : String
  packetLoss : Rat
  connections : List String

/-- The fields of a `MAVLinkNetwork` object set up by `__init__`
(lines 100-108 of `network.py`).  The `id_formatter` is kept as a function;
`spec.id_format.format` (Python's `str.format` bound method) is external
standard-library code and enters as a parameter. -/
structure MAVLinkNetwork where
  id : String
  idFormatter : Nat → String → String
  packetLoss : Rat
  /-- `self._system_id`.  Line 104 of `network.py` assigns the literal `255`
  here; the `system_id` constructor parameter is never read. -/
  systemId : Nat
  connections : List String

/-- `MAVLinkNetwork.__init__`: note that the body stores the literal `255`
into `self._system_id`, ignoring the `system_id` argument (the argument is
modelled faithfully as accepted-but-unused). -/
def mavlinkNetworkInit (id : String) (system_id : Nat)
    (id_formatter : Nat → String → String) (packet_loss : Rat) :
    MAVLinkNetwork :=
  { id := id,
    idFormatter := id_formatter,
    packetLoss := max packet_loss 0,
    systemId := 255,
    connections := [] }

/-- `MAVLinkNetwork.from_specification` (lines 59-75): construct via
`__init__` with the specification's fields, then add one connection per
connection specification.  `format` interprets a Python format pattern
(external standard library), producing the `id_formatter`. -/
def MAVLinkNetwork.fromSpecification
    (format : String → Nat → String → String)
    (spec : MAVLinkNetworkSpecification) : MAVLinkNetwork :=
  let result := mavlinkNetworkInit spec.id spec.systemId
    (format spec.idFormat) spec.packetLoss
  { result with connections := result.connections ++ spec.connections }

/-- A UAV handler as produced by the external driver factory and configured
by `_create_uav`: `driver.create_uav(uav_id)` followed by
`assign_to_network_and_system_id(network_id, system_id)`.  The
`mavlink_version` field is driver state opaque to this module; the factory is
external, so its initial value is fixed arbitrarily at 1 here and never
constrained by a theorem. -/
structure UAV where
  uavId : String
  networkId : String
  systemId : Nat
  mavlinkVersion : Nat
deriving DecidableEq, Repr

/-- A peer address; its structure is irrelevant to the network logic. -/
abbrev Addr := String

/-- The UAV-directory state of a running network: `self._uavs` keyed by
system id, `self._uav_addresses` keyed by the UAV handler (Python dict keyed
by object identity; distinct handlers carry distinct `system_id`s so value
equality coincides), and the application registry as the sequence of
`register_uav` calls. -/
structure NetworkState where
  uavs : List (Nat × UAV)
  uavAddresses : List (UAV × Addr)
  registry : List UAV

/-- `self._uavs.get(system_id)`. -/
def lookupUav (uavs : List (Nat × UAV)) (systemId : Nat) : Option UAV :=
  dictGet uavs systemId

/-- `self._uav_addresses.get(uav)`. -/
def lookupAddr (addrs : List (UAV × Addr)) (uav : UAV) : Option Addr :=
  dictGet addrs uav

/-- `self._uav_addresses[uav] = address`: overwrite or insert. -/
def setAddr (addrs : List (UAV × Addr)) (uav : UAV) (address : Addr) :
    List (UAV × Addr) :=
  dictSet addrs uav address

/-- `self._uavs[system_id] = uav`: overwrite or insert. -/
def setUav (uavs : List (Nat × UAV)) (systemId : Nat) (uav : UAV) :
    List (Nat × UAV) :=
  dictSet uavs systemId uav

/-- `MAVLinkNetwork._create_uav` (lines 376-387): build the drone id with the
formatter, have the driver create a handler, bind it to
`(network_id, system_id)`, register it with the application, and store it in
`self._uavs`. -/
def createUav (idFormatter : Nat → String → String) (networkId : String)
    (st : NetworkState) (system_id : Nat) : UAV × NetworkState :=
  let uav_id := idFormatter system_id networkId
  let uav : UAV :=
    { uavId := uav_id, networkId := networkId, systemId := system_id,
      mavlinkVersion := 1 }
  (uav,
   { st with
     uavs := setUav st.uavs system_id uav,
     registry := st.registry ++ [uav] })

/-- `MAVLinkNetwork._find_uav_from_message` (lines 389-414): a zero source
system is a broadcast and yields no UAV; otherwise the handler is fetched or
lazily created, and its last-known address is overwritten with the sender
address of this message. -/
def findUavFromMessage (idFormatter : Nat → String → String)
    (networkId : String) (st : NetworkState) (m : MAVLinkMessage)
    (address : Addr) : Option UAV × NetworkState :=
  let system_id := m.srcSystem
  if system_id == 0 then (Option.none, st)
  else
    let p :=
      match lookupUav st.uavs system_id with
      | some uav => (uav, st)
      | Option.none => createUav idFormatter networkId st system_id
    (some p.1, { p.2 with uavAddresses := setAddr p.2.uavAddresses p.1 address })

/-- Folding `_find_uav_from_message` over a sequence of sightings
`(message, address)`, as the per-type handlers do for each inbound message. -/
def processSightings (idFormatter : Nat → String → String)
    (networkId : String) (st : NetworkState)
    (sightings : List (MAVLinkMessage × Addr)) : NetworkState :=
  sightings.foldl
    (fun st p => (findUavFromMessage idFormatter networkId st p.1 p.2).2) st

/-- `DEFAULT_NAME` (line 40 of `network.py`). -/
def DEFAULT_NAME : String := ""

/-- Standard MAVLink enum values used by `HEARTBEAT_SPEC`; the enums module
is outside this slice, these are the MAVLink-defined constants
(`MAV_TYPE_GCS`, `MAV_AUTOPILOT_INVALID`, `MAV_STATE_STANDBY`). -/
def MAVType_GCS : Int := 6

/-- `MAV_AUTOPILOT_INVALID`. -/
def MAVAutopilot_INVALID : Int := 8

/-- `MAV_STATE_STANDBY`. -/
def MAVState_STANDBY : Int := 3

/-- A MAVLink message specification: a `(type, fields)` pair. -/
abbrev MessageSpec := String × List (String × PyVal)

/-- `HEARTBEAT_SPEC` (lines 44-53 of `network.py`). -/
def HEARTBEAT_SPEC : MessageSpec :=
  ("HEARTBEAT",
   [("type", PyVal.int MAVType_GCS),
    ("autopilot", PyVal.int MAVAutopilot_INVALID),
    ("base_mode", PyVal.int 0),
    ("custom_mode", PyVal.int 0),
    ("system_status", PyVal.int MAVState_STANDBY)])

/-- `fields[name]` lookup on a specification's field dictionary. -/
def lookupField (fields : List (String × PyVal)) (name : String) :
    Option PyVal :=
  dictGet fields name

/-- One key of a Python `dict.update`: a `dictSet`. -/
def updateSpecField (fields : List (String × PyVal)) (name : String)
    (v : PyVal) : List (String × PyVal) :=
  dictSet fields name v

/-- `dict.update(...)` with several keyword arguments, applied in order. -/
def updateSpecFields (fields : List (String × PyVal))
    (updates : List (String × PyVal)) : List (String × PyVal) :=
  updates.foldl (fun f p => updateSpecField f p.1 p.2) fields

/-- The result of `send_packet`: the caller's specification after the call
(its field dictionary is mutated in place before anything else happens) and
either the raised error or the `(spec, destination)` pair handed to
`manager.send_packet`. -/
structure SendPacketResult where
  spec : MessageSpec
  outcome : Except PyError (MessageSpec × (String × Addr))

/-- `MAVLinkNetwork.send_packet` with `wait_for_response = wait_for_one_of =
None` (lines 333-343 and 373-374 of `network.py`); the spec mutation and the
address lookup are shared by every branch.  First `spec[1].update(...)` sets
the targeting fields, then the address lookup either raises
`RuntimeError("UAV has no address in this network")` - with the mutation not
rolled back - or the message is sent to `(DEFAULT_NAME, address)`. -/
def sendPacket (uavAddresses : List (UAV × Addr)) (spec : MessageSpec)
    (target : UAV) : SendPacketResult :=
  let fields1 := updateSpecFields spec.2
    [("target_system", PyVal.int (Int.ofNat target.systemId)),
     ("target_component", PyVal.int (Int.ofNat AUTOPILOT1)),
     ("_mavlink_version", PyVal.int (Int.ofNat target.mavlinkVersion))]
  let spec1 : MessageSpec := (spec.1, fields1)
  match lookupAddr uavAddresses target with
  | Option.none =>
    { spec := spec1, outcome := Except.error PyError.runtimeErrorNoAddress }
  | some address =>
    { spec := spec1,
      outcome := Except.ok (spec1, (DEFAULT_NAME, address)) }

/-- `MAVLinkNetwork.send_heartbeat` (lines 290-304): look up the target's
address, raise `RuntimeError` when there is none, otherwise send
`HEARTBEAT_SPEC` to `(DEFAULT_NAME, address)`. -/
def sendHeartbeat (uavAddresses : List (UAV × Addr)) (target : UAV) :
    Except PyError (MessageSpec × (String × Addr)) :=
  match lookupAddr uavAddresses target with
  | Option.none => Except.error PyError.runtimeErrorNoAddress
  | some address => Except.ok (HEARTBEAT_SPEC, (DEFAULT_NAME, address))

/-! ## The Sidekick RTK fan-out service (`sidekick.py`) -/

/-- The Base64 alphabet. -/
def base64Alphabet : String :=
  "ABCDEFGHIJKLMNOPQRSTUVWXYZabcdefghijklmnopqrstuvwxyz0123456789+/"

/-- The Base64 digit for a 6-bit value. -/
def base64Digit (n : Nat) : Char := base64Alphabet.data.getD n 'A'

/-- `b64encode` of a byte sequence, standard alphabet with `=` padding,
followed by `.decode("ascii")`; the character list of the resulting Python
string. -/
def b64encode : List Nat → List Char
  | [] => []
  | [a] =>
    [base64Digit (a / 4), base64Digit (a % 4 * 16), '=', '=']
  | [a, b] =>
    [base64Digit (a / 4), base64Digit (a % 4 * 16 + b / 16),
     base64Digit (b % 16 * 4), '=']
  | a :: b :: c :: rest =>
    [base64Digit (a / 4), base64Digit (a % 4 * 16 + b / 16),
     base64Digit (b % 16 * 4 + c / 64), base64Digit (c % 64)] ++ b64encode rest

/-- An RTK fragment as a MAVLink packet specification `(type, fields)`. -/
abbrev RtkMessage := String × List (String × PyVal)

/-- The per-message encoding step of `handle_mavlink_rtk_packet_fragments`
(lines 142-146 of `sidekick.py`): when the field dictionary has a `data` key,
the dictionary is copied with `data` replaced by the Base64 ASCII form of its
byte payload (the MAVLink encoder always puts `bytes` there); dictionaries
without a `data` key are passed through. -/
def encodeRtkMessage (msg : RtkMessage) : RtkMessage :=
  if (msg.2.find? (fun p => p.1 == "data")).isSome then
    (msg.1,
     msg.2.map (fun p =>
       if p.1 == "data" then
         (p.1,
          match p.2 with
          | PyVal.bytes bs => PyVal.str (String.mk (b64encode bs))
          | v => v)
       else p))
  else msg

/-- The value serialized by `encode_command(type, data)`: the JSON codec is
an external injective encoder, so the wire payload is modelled by the
structured value `{"type": type, "data": data}` itself. -/
structure Command where
  type : String
  data : List RtkMessage
deriving DecidableEq, Repr

/-- `encode_command("rtk", encoded_messages)`. -/
def encodeCommand (type : String) (data : List RtkMessage) : Command :=
  ⟨type, data⟩

/-- `open_memory_channel(16)`: the subscriber channel capacity. -/
def CHANNEL_CAPACITY : Nat := 16

/-- A subscriber channel is its bounded buffer of queued payloads;
`send_nowait` succeeds exactly when the buffer holds fewer than
`CHANNEL_CAPACITY` items, and never suspends the caller. -/
abbrev SubscriberChannel := List Command

/-- The module-level state of the sidekick extension that the signal handler
touches: the subscriber channel list and the lines passed to `log.warn`. -/
structure SidekickState where
  channels : List SubscriberChannel
  logWarnings : List String

/-- The backpressure warning text (line 160 of `sidekick.py`). -/
def rtkDropWarning : String :=
  "Dropping outbound RTK correction packet due to backpressure"

/-- The `for channel in channels` loop of
`handle_mavlink_rtk_packet_fragments`: attempt `send_nowait` on each channel
in order, counting the channels whose full buffer forced a drop. -/
def rtkFanOutStep (data : Command)
    (acc : List SubscriberChannel × Nat) (c : SubscriberChannel) :
    List SubscriberChannel × Nat :=
  if c.length < CHANNEL_CAPACITY then (acc.1 ++ [c ++ [data]], acc.2)
  else (acc.1 ++ [c], acc.2 + 1)

/-- `handle_mavlink_rtk_packet_fragments` (lines 122-160 of `sidekick.py`):
return immediately when there are no subscribers; otherwise Base64-encode the
`data` fields, build the `rtk` command once, deliver it to every subscriber
with a non-blocking send (full buffer means the payload is dropped for that
subscriber only), and emit a single warning line when at least one drop
occurred. -/
def handleMavlinkRtkPacketFragments (st : SidekickState)
    (messages : List RtkMessage) : SidekickState :=
  if st.channels.isEmpty then st
  else
    let encoded_messages := messages.map encodeRtkMessage
    let data := encodeCommand "rtk" encoded_messages
    let r := st.channels.foldl (rtkFanOutStep data) ([], 0)
    { channels := r.1,
      logWarnings :=
        if r.2 > 0 then st.logWarnings ++ [rtkDropWarning]
        else st.logWarnings }

/-! ## Helper lemmas -/

/-- `convertParamValue` written out as the claim states it. -/
theorem convertParamValue_eq (v : PyVal) :
    convertParamValue v =
      (match v with
       | PyVal.bytes b =>
         (match utf8Decode b with
          | some s => PyVal.str s
          | Option.none => PyVal.bytes b)
       | v => v) := by
  cases v <;> rfl

/-- Matching the converted dictionary is matching the original one value by
value through the bytes-to-str conversion. -/
theorem all_convertParamFields (ps : List (String × PyVal))
    (m : MAVLinkMessage) :
    (convertParamFields ps).all (fun p => getField m p.1 == p.2) =
      ps.all (fun p => getField m p.1 == convertParamValue p.2) := by
  unfold convertParamFields
  rw [List.all_map]
  rfl

/-- Removing by a future id absent from a prefix walks past the prefix. -/
theorem removeMatcher_append (fid : Nat) (ms l : List MatcherEntry)
    (h : fid ∉ ms.map (fun e => e.future)) :
    removeMatcher fid (ms ++ l) = ms ++ removeMatcher fid l := by
  induction ms with
  | nil => rfl
  | cons e rest ih =>
    simp only [List.map_cons, List.mem_cons] at h
    push_neg at h
    have hne : (e.future == fid) = false :=
      beq_eq_false_iff_ne.mpr (Ne.symm h.1)
    simp only [List.cons_append, removeMatcher, hne, Bool.false_eq_true,
      if_false, List.append_eq]
    rw [ih h.2]

/-! ## Claim theorems -/

/-- C1: the claim says that entering `expect_packet` with the wildcard
predicate (`params = None`) always succeeds and installs a matcher that
matches every message of the type.  The code instead raises
`AttributeError`: `None` is not callable, so the bytes-normalisation loop
runs `params.items()` on `None` before any matcher is installed.  (The
dispatch loop's `params is None → match` branch and the `send_packet`
docstring show the wildcard was intended to be accepted.) -/
theorem expect_packet_wildcard_raises (systemId : Option Nat) (fid : Nat)
    (ms : List MatcherEntry) :
    expectPacketScope systemId Params.wildcard fid ms =
      Except.error PyError.attributeError := rfl

/-- C2: the claim says the network created from a specification stores the
specification's `system_id` as its server system id.  Line 104 of
`network.py` assigns the literal `255` to `self._system_id`, ignoring the
constructor argument, so every network - whatever its specification says -
ends up with system id 255. -/
theorem from_specification_system_id_always_255
    (format : String → Nat → String → String)
    (spec : MAVLinkNetworkSpecification) :
    (MAVLinkNetwork.fromSpecification format spec).systemId = 255 := rfl

/-- C9: `expect_packet` with a field-mapping predicate rewrites the caller's
dictionary in place - every `bytes` value that decodes as UTF-8 becomes its
decoded string, undecodable `bytes` values stay, every other value and all
keys stay - and the rewritten dictionary is what survives after the scope
exits (nothing restores it). -/
theorem expect_packet_mutates_params_in_place (systemId : Option Nat)
    (ps : List (String × PyVal)) (fid : Nat) (ms : List MatcherEntry) :
    ∃ res qs,
      expectPacketScope systemId (Params.fields ps) fid ms = Except.ok res ∧
      res.params = Params.fields qs ∧
      List.Forall₂
        (fun p q =>
          q.1 = p.1 ∧
          q.2 = (match p.2 with
                 | PyVal.bytes b =>
                   (match utf8Decode b with
                    | some s => PyVal.str s
                    | Option.none => PyVal.bytes b)
                 | v => v))
        ps qs := by
  refine ⟨_, convertParamFields ps, rfl, rfl, ?_⟩
  unfold convertParamFields
  rw [List.forall₂_map_right_iff, List.forall₂_same]
  intro p _
  exact ⟨rfl, (convertParamValue_eq p.2).symm⟩

/-- C5: for a matcher entry installed by `expect_packet` with a
field-mapping predicate, the dispatch-time evaluation is: the entry does not
match when its source-system filter is set and differs from the message's
source system; otherwise it matches exactly when, for every `(field,
expected)` pair of the caller's mapping, the message's field (with `None`
standing in for a missing field) equals the expected value, a `bytes`
expected value being compared in its decoded UTF-8 string form. -/
theorem matcher_field_predicate_semantics (systemId : Option Nat)
    (ps : List (String × PyVal)) (fid : Nat) (ms : List MatcherEntry)
    (m : MAVLinkMessage) :
    ∃ res e,
      expectPacketScope systemId (Params.fields ps) fid ms = Except.ok res ∧
      res.matchersDuring = ms ++ [e] ∧
      e.systemId = systemId ∧ e.future = fid ∧
      matcherMatches e.systemId e.params m =
        ((match systemId with
          | some s => m.srcSystem == s
          | Option.none => true) &&
         ps.all (fun p =>
           getField m p.1 ==
             (match p.2 with
              | PyVal.bytes b =>
                (match utf8Decode b with
                 | some s => PyVal.str s
                 | Option.none => PyVal.bytes b)
              | v => v))) := by
  refine ⟨_, ⟨systemId, Params.fields (convertParamFields ps), fid⟩,
    rfl, rfl, rfl, rfl, ?_⟩
  have hall : matchParams (Params.fields (convertParamFields ps)) m =
      ps.all (fun p => getField m p.1 == convertParamValue p.2) := by
    simpa [matchParams] using all_convertParamFields ps m
  have hbody : (ps.all (fun p => getField m p.1 == convertParamValue p.2)) =
      ps.all (fun p =>
        getField m p.1 ==
          (match p.2 with
           | PyVal.bytes b =>
             (match utf8Decode b with
              | some s => PyVal.str s
              | Option.none => PyVal.bytes b)
           | v => v)) := by
    have hfun : (fun (p : String × PyVal) =>
        getField m p.1 == convertParamValue p.2) =
        (fun (p : String × PyVal) =>
          getField m p.1 ==
            (match p.2 with
             | PyVal.bytes b =>
               (match utf8Decode b with
                | some s => PyVal.str s
                | Option.none => PyVal.bytes b)
             | v => v)) := by
      funext p
      rw [convertParamValue_eq]
    rw [hfun]
  cases systemId with
  | none => simpa [matcherMatches, hbody] using hall
  | some s =>
    by_cases h : m.srcSystem = s
    · simp only [matcherMatches, h, ne_eq, not_true_eq_false, if_false,
        beq_self_eq_true, Bool.true_and]
      rw [hall, hbody]
    · simp [matcherMatches, h, Ne.symm h]

/-- `dictGet` as an `Option.map` over `find?`. -/
theorem dictGet_eq_map {κ α : Type} [BEq κ] (l : List (κ × α)) (k : κ) :
    dictGet l k = (l.find? (fun p => p.1 == k)).map Prod.snd := by
  unfold dictGet
  cases l.find? (fun p => p.1 == k) <;> rfl

/-- `dictGet` at a matching head. -/
theorem dictGet_cons_pos {κ α : Type} [BEq κ] (p : κ × α) (l : List (κ × α))
    (k : κ) (h : (p.1 == k) = true) : dictGet (p :: l) k = some p.2 := by
  unfold dictGet
  rw [List.find?_cons, h]

/-- `dictGet` past a non-matching head. -/
theorem dictGet_cons_neg {κ α : Type} [BEq κ] (p : κ × α) (l : List (κ × α))
    (k : κ) (h : (p.1 == k) = false) : dictGet (p :: l) k = dictGet l k := by
  unfold dictGet
  rw [List.find?_cons, h]

/-- Rewriting the value under an existing key makes its lookup return the
new value. -/
theorem dictGet_map_set_self {κ α : Type} [BEq κ] [LawfulBEq κ] (k : κ)
    (v : α) :
    ∀ l : List (κ × α),
      (l.find? (fun p => p.1 == k)).isSome = true →
      dictGet (l.map (fun p => if p.1 == k then (p.1, v) else p)) k =
        some v := by
  intro l
  induction l with
  | nil => intro h; simp at h
  | cons p rest ih =>
    intro h
    rw [List.map_cons]
    by_cases hp : (p.1 == k) = true
    · rw [if_pos hp]
      exact dictGet_cons_pos (p.1, v) _ k hp
    · have hb : (p.1 == k) = false := by simpa using hp
      have h' : (rest.find? (fun p => p.1 == k)).isSome = true := by
        rwa [List.find?_cons_of_neg _ (by simp [hb])] at h
      rw [if_neg hp, dictGet_cons_neg p _ k hb]
      exact ih h'

/-- Rewriting the value under one key does not change the lookup of any
other key. -/
theorem dictGet_map_set_other {κ α : Type} [BEq κ] [LawfulBEq κ]
    (k k' : κ) (v : α) (hne : k' ≠ k) :
    ∀ l : List (κ × α),
      dictGet (l.map (fun p => if p.1 == k then (p.1, v) else p)) k' =
        dictGet l k' := by
  intro l
  induction l with
  | nil => rfl
  | cons p rest ih =>
    rw [List.map_cons]
    by_cases hpk : (p.1 == k) = true
    · have hp : p.1 = k := beq_iff_eq.mp hpk
      have hb' : (p.1 == k') = false := by
        refine beq_eq_false_iff_ne.mpr ?_
        rw [hp]; exact fun hc => hne hc.symm
      rw [if_pos hpk, dictGet_cons_neg (p.1, v) _ k' hb',
        dictGet_cons_neg p _ k' hb']
      exact ih
    · rw [if_neg hpk]
      by_cases hp' : (p.1 == k') = true
      · rw [dictGet_cons_pos p _ k' hp', dictGet_cons_pos p _ k' hp']
      · have hb' : (p.1 == k') = false := by simpa using hp'
        rw [dictGet_cons_neg p _ k' hb', dictGet_cons_neg p _ k' hb']
        exact ih

/-- Writing a key makes it present with the written value. -/
theorem dictGet_dictSet_self {κ α : Type} [BEq κ] [LawfulBEq κ]
    (l : List (κ × α)) (k : κ) (v : α) :
    dictGet (dictSet l k v) k = some v := by
  unfold dictSet
  by_cases hf : (l.find? (fun p => p.1 == k)).isSome
  · rw [if_pos hf]
    exact dictGet_map_set_self k v l hf
  · rw [if_neg hf]
    have hnone : l.find? (fun p => p.1 == k) = Option.none :=
      Option.not_isSome_iff_eq_none.mp hf
    rw [dictGet_eq_map, List.find?_append, hnone,
      List.find?_cons_of_pos _ (by simp)]
    rfl

/-- Writing one key leaves every other key's lookup unchanged. -/
theorem dictGet_dictSet_other {κ α : Type} [BEq κ] [LawfulBEq κ]
    (l : List (κ × α)) (k k' : κ) (v : α) (hne : k' ≠ k) :
    dictGet (dictSet l k v) k' = dictGet l k' := by
  unfold dictSet
  by_cases hf : (l.find? (fun p => p.1 == k)).isSome
  · rw [if_pos hf]
    exact dictGet_map_set_other k k' v hne l
  · rw [if_neg hf]
    have hkk : (k == k') = false := beq_eq_false_iff_ne.mpr (Ne.symm hne)
    rw [dictGet_eq_map, List.find?_append,
      List.find?_cons_of_neg _ (by simp [hkk]), dictGet_eq_map]
    simp

/-- Updating a key makes it present with the new value. -/
theorem lookupField_updateSpecField_self (f : List (String × PyVal))
    (n : String) (v : PyVal) :
    lookupField (updateSpecField f n v) n = some v :=
  dictGet_dictSet_self f n v

/-- Updating one key leaves every other key's lookup unchanged. -/
theorem lookupField_updateSpecField_other (f : List (String × PyVal))
    (n n' : String) (v : PyVal) (hne : n' ≠ n) :
    lookupField (updateSpecField f n v) n' = lookupField f n' :=
  dictGet_dictSet_other f n n' v hne

/-! ## Claim theorems (continued) -/

/-- C3: a matcher entry installed with a fresh future is gone from the
per-type matcher list once the `expect_packet` scope has exited - in fact the
list is restored exactly, whether or not the future was fulfilled in between
(fulfilment never touches the table) - and when `run` terminates, the
`finally` block cancels the future of every entry still present anywhere in
the matcher table. -/
theorem matcher_scope_closure_and_shutdown_cancel
    (systemId : Option Nat) (params : Params) (fid : Nat)
    (ms : List MatcherEntry) (table : MatcherTable)
    (hfresh : fid ∉ ms.map (fun e => e.future)) :
    (∀ res, expectPacketScope systemId params fid ms = Except.ok res →
       res.matchersAfter = ms ∧ ∀ e ∈ res.matchersAfter, e.future ≠ fid) ∧
    (∀ ty e, e ∈ getMatchers table ty →
       e.future ∈ runCleanupCancels table) := by
  constructor
  · intro res hres
    have hafter : res.matchersAfter = ms := by
      cases params with
      | wildcard => simp [expectPacketScope, expectPacketEnter] at hres
      | func f =>
        simp only [expectPacketScope, expectPacketEnter] at hres
        cases hres
        show removeMatcher fid (ms ++ [⟨systemId, Params.func f, fid⟩]) = ms
        rw [removeMatcher_append fid ms _ hfresh]
        simp [removeMatcher]
      | fields ps =>
        simp only [expectPacketScope, expectPacketEnter] at hres
        cases hres
        show removeMatcher fid
          (ms ++ [⟨systemId, Params.fields (convertParamFields ps), fid⟩]) = ms
        rw [removeMatcher_append fid ms _ hfresh]
        simp [removeMatcher]
    refine ⟨hafter, ?_⟩
    intro e he hcontra
    rw [hafter] at he
    exact hfresh (hcontra ▸ List.mem_map_of_mem (fun e => e.future) he)
  · intro ty e he
    unfold getMatchers at he
    cases hd : dictGet table ty with
    | none => rw [hd] at he; simp at he
    | some lst =>
      rw [hd, Option.getD_some] at he
      rw [dictGet_eq_map] at hd
      obtain ⟨p, hfind, hsnd⟩ := Option.map_eq_some'.mp hd
      have hp : p ∈ table := List.mem_of_find?_eq_some hfind
      rw [← hsnd] at he
      unfold runCleanupCancels
      rw [List.mem_flatten]
      exact ⟨p.2.map (fun e => e.future),
        List.mem_map_of_mem (fun p => p.2.map (fun e => e.future)) hp,
        List.mem_map_of_mem (fun e => e.future) he⟩

/-- Witness for C3 at a concrete scope and a concrete matcher table. -/
theorem matcher_scope_closure_witness :
    (∀ res, expectPacketScope (some 7)
        (Params.fields [("command", PyVal.int 400)]) 5 [] = Except.ok res →
       res.matchersAfter = [] ∧ ∀ e ∈ res.matchersAfter, e.future ≠ 5) ∧
    (∀ ty e,
       e ∈ getMatchers [("HEARTBEAT", [⟨Option.none, Params.wildcard, 3⟩])] ty →
       e.future ∈
         runCleanupCancels
           [("HEARTBEAT", [⟨Option.none, Params.wildcard, 3⟩])]) :=
  matcher_scope_closure_and_shutdown_cancel (some 7)
    (Params.fields [("command", PyVal.int 400)]) 5 []
    [("HEARTBEAT", [⟨Option.none, Params.wildcard, 3⟩])] (by simp)

/-- C8: a targeted send - `send_packet` or `send_heartbeat` - to a UAV with
no recorded peer address raises the no-address `RuntimeError` and hands
nothing to the transport (the successful outcome alone carries a
`(spec, destination)` pair); when an address is recorded, `send_packet`
sends to `(DEFAULT_NAME, address)`, and so does `send_heartbeat` with the
heartbeat specification. -/
theorem send_requires_known_address (addrs : List (UAV × Addr))
    (spec : MessageSpec) (target : UAV) :
    (lookupAddr addrs target = Option.none →
       (sendPacket addrs spec target).outcome =
         Except.error PyError.runtimeErrorNoAddress ∧
       sendHeartbeat addrs target =
         Except.error PyError.runtimeErrorNoAddress) ∧
    (∀ a, lookupAddr addrs target = some a →
       (sendPacket addrs spec target).outcome =
         Except.ok ((sendPacket addrs spec target).spec, (DEFAULT_NAME, a)) ∧
       sendHeartbeat addrs target =
         Except.ok (HEARTBEAT_SPEC, (DEFAULT_NAME, a))) := by
  constructor
  · intro h
    exact ⟨by simp [sendPacket, h], by simp [sendHeartbeat, h]⟩
  · intro a h
    exact ⟨by simp [sendPacket, h], by simp [sendHeartbeat, h]⟩

/-- Witness for C8: one UAV with no address, then the same UAV with one. -/
theorem send_requires_known_address_witness :
    ((sendPacket [] ("COMMAND_LONG", [("command", PyVal.int 400)])
        ⟨"7", "alpha", 7, 2⟩).outcome =
       Except.error PyError.runtimeErrorNoAddress ∧
     sendHeartbeat [] ⟨"7", "alpha", 7, 2⟩ =
       Except.error PyError.runtimeErrorNoAddress) ∧
    ((sendPacket [(⟨"7", "alpha", 7, 2⟩, "udp://1")]
        ("COMMAND_LONG", [("command", PyVal.int 400)])
        ⟨"7", "alpha", 7, 2⟩).outcome =
       Except.ok
         ((sendPacket [(⟨"7", "alpha", 7, 2⟩, "udp://1")]
             ("COMMAND_LONG", [("command", PyVal.int 400)])
             ⟨"7", "alpha", 7, 2⟩).spec,
          (DEFAULT_NAME, "udp://1")) ∧
     sendHeartbeat [(⟨"7", "alpha", 7, 2⟩, "udp://1")] ⟨"7", "alpha", 7, 2⟩ =
       Except.ok (HEARTBEAT_SPEC, (DEFAULT_NAME, "udp://1"))) :=
  ⟨(send_requires_known_address []
      ("COMMAND_LONG", [("command", PyVal.int 400)])
      ⟨"7", "alpha", 7, 2⟩).1 rfl,
   (send_requires_known_address [(⟨"7", "alpha", 7, 2⟩, "udp://1")]
      ("COMMAND_LONG", [("command", PyVal.int 400)])
      ⟨"7", "alpha", 7, 2⟩).2 "udp://1" rfl⟩

/-- C10: `send_packet` updates the caller's specification dictionary -
`target_system`, `target_component`, `_mavlink_version` - before it looks up
the target's address, so when the lookup fails the error is raised with the
specification already mutated and nothing rolls it back. -/
theorem send_packet_mutates_spec_before_lookup (addrs : List (UAV × Addr))
    (spec : MessageSpec) (target : UAV)
    (h : lookupAddr addrs target = Option.none) :
    (sendPacket addrs spec target).outcome =
      Except.error PyError.runtimeErrorNoAddress ∧
    (sendPacket addrs spec target).spec.1 = spec.1 ∧
    lookupField (sendPacket addrs spec target).spec.2 "target_system" =
      some (PyVal.int (Int.ofNat target.systemId)) ∧
    lookupField (sendPacket addrs spec target).spec.2 "target_component" =
      some (PyVal.int (Int.ofNat AUTOPILOT1)) ∧
    lookupField (sendPacket addrs spec target).spec.2 "_mavlink_version" =
      some (PyVal.int (Int.ofNat target.mavlinkVersion)) := by
  have hspec : (sendPacket addrs spec target).spec =
      (spec.1, updateSpecFields spec.2
        [("target_system", PyVal.int (Int.ofNat target.systemId)),
         ("target_component", PyVal.int (Int.ofNat AUTOPILOT1)),
         ("_mavlink_version", PyVal.int (Int.ofNat target.mavlinkVersion))]) := by
    simp [sendPacket, h]
  refine ⟨by simp [sendPacket, h], by rw [hspec], ?_, ?_, ?_⟩ <;>
    rw [hspec] <;>
    simp only [updateSpecFields, List.foldl_cons, List.foldl_nil]
  · rw [lookupField_updateSpecField_other _ _ _ _ (by decide),
      lookupField_updateSpecField_other _ _ _ _ (by decide),
      lookupField_updateSpecField_self]
  · rw [lookupField_updateSpecField_other _ _ _ _ (by decide),
      lookupField_updateSpecField_self]
  · rw [lookupField_updateSpecField_self]

/-- Witness for C10: the no-address failure still leaves the targeting
fields written into the specification. -/
theorem send_packet_mutates_spec_witness :
    (sendPacket [] ("COMMAND_LONG", [("command", PyVal.int 400)])
       ⟨"7", "alpha", 7, 2⟩).outcome =
      Except.error PyError.runtimeErrorNoAddress ∧
    (sendPacket [] ("COMMAND_LONG", [("command", PyVal.int 400)])
       ⟨"7", "alpha", 7, 2⟩).spec.1 = "COMMAND_LONG" ∧
    lookupField (sendPacket [] ("COMMAND_LONG", [("command", PyVal.int 400)])
       ⟨"7", "alpha", 7, 2⟩).spec.2 "target_system" =
      some (PyVal.int (Int.ofNat 7)) ∧
    lookupField (sendPacket [] ("COMMAND_LONG", [("command", PyVal.int 400)])
       ⟨"7", "alpha", 7, 2⟩).spec.2 "target_component" =
      some (PyVal.int (Int.ofNat AUTOPILOT1)) ∧
    lookupField (sendPacket [] ("COMMAND_LONG", [("command", PyVal.int 400)])
       ⟨"7", "alpha", 7, 2⟩).spec.2 "_mavlink_version" =
      some (PyVal.int (Int.ofNat 2)) :=
  send_packet_mutates_spec_before_lookup []
    ("COMMAND_LONG", [("command", PyVal.int 400)]) ⟨"7", "alpha", 7, 2⟩ rfl

/-- Characterisation of the fan-out loop: the resulting channel list is the
pointwise non-blocking delivery, and the drop counter counts the full
channels. -/
theorem rtkFanOut_foldl (data : Command) :
    ∀ (cs : List SubscriberChannel) (acc : List SubscriberChannel) (n : Nat),
      cs.foldl (rtkFanOutStep data) (acc, n) =
        (acc ++ cs.map
            (fun c => if c.length < CHANNEL_CAPACITY then c ++ [data] else c),
         n + cs.countP (fun c => !(c.length < CHANNEL_CAPACITY))) := by
  intro cs
  induction cs with
  | nil => intro acc n; simp
  | cons c rest ih =>
    intro acc n
    rw [List.foldl_cons]
    by_cases h : c.length < CHANNEL_CAPACITY
    · simp only [rtkFanOutStep, if_pos h]
      rw [ih]
      simp [h, List.countP_cons]
    · simp only [rtkFanOutStep, if_neg h]
      rw [ih]
      simp only [List.map_cons, List.countP_cons, if_neg h, Prod.mk.injEq]
      constructor
      · simp
      · have hp : (!decide (c.length < CHANNEL_CAPACITY)) = true := by
          simp [h]
        rw [if_pos hp]
        omega

/-- C4: the RTK fan-out handler delivers the encoded batch to every
subscriber whose 16-slot channel is not full with a non-blocking send (the
producer is never suspended: the model contains only `send_nowait`), leaves
a full subscriber's channel untouched - the payload is dropped for that
subscriber alone - and appends exactly one backpressure warning to the log
when at least one drop occurred, none otherwise. -/
theorem rtk_fanout_backpressure (st : SidekickState)
    (messages : List RtkMessage) :
    (handleMavlinkRtkPacketFragments st messages).channels.length =
      st.channels.length ∧
    List.Forall₂
      (fun c c1 =>
        (c.length < CHANNEL_CAPACITY ∧
           c1 = c ++ [encodeCommand "rtk" (messages.map encodeRtkMessage)]) ∨
        (CHANNEL_CAPACITY ≤ c.length ∧ c1 = c))
      st.channels (handleMavlinkRtkPacketFragments st messages).channels ∧
    (handleMavlinkRtkPacketFragments st messages).logWarnings =
      (if st.channels.any (fun c => !(c.length < CHANNEL_CAPACITY)) then
         st.logWarnings ++ [rtkDropWarning]
       else st.logWarnings) := by
  by_cases hempty : st.channels.isEmpty
  · have hnil : st.channels = [] := List.isEmpty_iff.mp hempty
    refine ⟨by simp [handleMavlinkRtkPacketFragments, hempty], ?_, ?_⟩
    · rw [hnil]
      simp only [handleMavlinkRtkPacketFragments, hempty, if_true]
      rw [hnil]
      exact List.Forall₂.nil
    · simp [handleMavlinkRtkPacketFragments, hempty, hnil]
  · have hres : handleMavlinkRtkPacketFragments st messages =
        { channels :=
            st.channels.map (fun c =>
              if c.length < CHANNEL_CAPACITY then
                c ++ [encodeCommand "rtk" (messages.map encodeRtkMessage)]
              else c),
          logWarnings :=
            if 0 < st.channels.countP
                (fun c => !(c.length < CHANNEL_CAPACITY)) then
              st.logWarnings ++ [rtkDropWarning]
            else st.logWarnings } := by
      simp only [handleMavlinkRtkPacketFragments]
      rw [if_neg (by simp [hempty]),
        rtkFanOut_foldl (encodeCommand "rtk" (messages.map encodeRtkMessage))
          st.channels [] 0]
      simp [Nat.pos_iff_ne_zero]
    refine ⟨by rw [hres]; simp, ?_, ?_⟩
    · rw [hres]
      simp only
      rw [List.forall₂_map_right_iff, List.forall₂_same]
      intro c _
      by_cases h : c.length < CHANNEL_CAPACITY
      · exact Or.inl ⟨h, by rw [if_pos h]⟩
      · exact Or.inr ⟨Nat.le_of_not_lt h, by rw [if_neg h]⟩
    · rw [hres]
      simp only
      by_cases hany :
          st.channels.any (fun c => !(c.length < CHANNEL_CAPACITY)) = true
      · rw [if_pos ?hc, if_pos hany]
        case hc =>
          rw [List.countP_pos_iff]
          obtain ⟨c, hc, hpc⟩ := List.any_eq_true.mp hany
          exact ⟨c, hc, hpc⟩
      · rw [if_neg ?hc, if_neg hany]
        case hc =>
          rw [List.countP_pos_iff]
          intro ⟨c, hc, hpc⟩
          exact hany (List.any_eq_true.mpr ⟨c, hc, hpc⟩)

/-- `getLast?` of a cons, written with `Option.or`. -/
theorem getLast?_cons_or {α : Type} (a : α) (l : List α) :
    (a :: l).getLast? = (l.getLast?).or (some a) := by
  cases l with
  | nil => rfl
  | cons b t =>
    rw [List.getLast?_cons_cons]
    obtain ⟨x, hx⟩ := Option.isSome_iff_exists.mp
      (List.getLast?_isSome.mpr (List.cons_ne_nil b t))
    rw [hx]
    rfl

/-- A UAV value whose system id differs from every key is absent from the
address dictionary (object identity: a fresh handler is a new key). -/
theorem find?_addr_none (addrs : List (UAV × Addr)) (u : UAV)
    (haddr : ∀ p ∈ addrs, p.1.systemId ≠ u.systemId) :
    addrs.find? (fun p => p.1 == u) = Option.none := by
  rw [List.find?_eq_none]
  intro p hp
  simp only [beq_iff_eq]
  intro hcontra
  exact haddr p hp (by rw [hcontra])

/-- Folding address overwrites for one handler: the final lookup yields the
last written address, or the original binding when nothing was written. -/
theorem lookupAddr_foldl_setAddr (u : UAV) :
    ∀ (sightings : List (MAVLinkMessage × Addr)) (a0 : List (UAV × Addr)),
      lookupAddr (sightings.foldl (fun acc p => setAddr acc u p.2) a0) u =
        ((sightings.map Prod.snd).getLast?).or (lookupAddr a0 u) := by
  intro sightings
  induction sightings with
  | nil => intro a0; simp
  | cons p rest ih =>
    intro a0
    rw [List.foldl_cons, ih, List.map_cons, getLast?_cons_or]
    have hself : lookupAddr (setAddr a0 u p.2) u = some p.2 :=
      dictGet_dictSet_self a0 u p.2
    rw [hself]
    cases (rest.map Prod.snd).getLast? <;> rfl

/-- `_find_uav_from_message` on an already-known system id: the directory and
the registry stay untouched; only the handler's address is overwritten. -/
theorem findUav_existing (fmt : Nat → String → String) (netId : String)
    (st : NetworkState) (m : MAVLinkMessage) (a : Addr) (s : Nat) (u : UAV)
    (hs : m.srcSystem = s) (h0 : s ≠ 0)
    (hu : lookupUav st.uavs s = some u) :
    findUavFromMessage fmt netId st m a =
      (some u, { st with uavAddresses := setAddr st.uavAddresses u a }) := by
  simp only [findUavFromMessage]
  have hz : (m.srcSystem == 0) = false := by
    rw [hs]; exact beq_eq_false_iff_ne.mpr h0
  rw [if_neg (by simp [hz]), hs, hu]

/-- `_find_uav_from_message` on an unknown system id creates, binds and
registers the new handler, then records its address. -/
theorem findUav_creates (fmt : Nat → String → String) (netId : String)
    (st : NetworkState) (m : MAVLinkMessage) (a : Addr) (s : Nat)
    (hs : m.srcSystem = s) (h0 : s ≠ 0)
    (hu : lookupUav st.uavs s = Option.none)
    (haddr : ∀ p ∈ st.uavAddresses, p.1.systemId ≠ s) :
    findUavFromMessage fmt netId st m a =
      (some ⟨fmt s netId, netId, s, 1⟩,
       { uavs := setUav st.uavs s ⟨fmt s netId, netId, s, 1⟩,
         uavAddresses :=
           st.uavAddresses ++ [(⟨fmt s netId, netId, s, 1⟩, a)],
         registry := st.registry ++ [⟨fmt s netId, netId, s, 1⟩] }) := by
  simp only [findUavFromMessage]
  have hz : (m.srcSystem == 0) = false := by
    rw [hs]; exact beq_eq_false_iff_ne.mpr h0
  rw [if_neg (by simp [hz]), hs, hu]
  simp only [createUav]
  have hfind : st.uavAddresses.find?
      (fun p => p.1 == (⟨fmt s netId, netId, s, 1⟩ : UAV)) = Option.none :=
    find?_addr_none st.uavAddresses ⟨fmt s netId, netId, s, 1⟩
      (fun p hp => haddr p hp)
  simp only [setAddr, dictSet, hfind, Option.isSome_none, Bool.false_eq_true,
    if_false]

/-- Processing further sightings of a known system id only overwrites the
handler's address, one write per sighting. -/
theorem processSightings_existing (fmt : Nat → String → String)
    (netId : String) (s : Nat) (u : UAV) :
    ∀ (sightings : List (MAVLinkMessage × Addr)) (st : NetworkState),
      (∀ p ∈ sightings, p.1.srcSystem = s) → s ≠ 0 →
      lookupUav st.uavs s = some u →
      (processSightings fmt netId st sightings).uavs = st.uavs ∧
      (processSightings fmt netId st sightings).registry = st.registry ∧
      (processSightings fmt netId st sightings).uavAddresses =
        sightings.foldl (fun acc p => setAddr acc u p.2) st.uavAddresses := by
  intro sightings
  induction sightings with
  | nil => intro st _ _ _; exact ⟨rfl, rfl, rfl⟩
  | cons p rest ih =>
    intro st hs h0 hu
    have hstep := findUav_existing fmt netId st p.1 p.2 s u
      (hs p (List.mem_cons_self p rest)) h0 hu
    have hsnd : (findUavFromMessage fmt netId st p.1 p.2).2 =
        { st with uavAddresses := setAddr st.uavAddresses u p.2 } :=
      congrArg Prod.snd hstep
    unfold processSightings
    rw [List.foldl_cons]
    unfold processSightings at ih
    rw [hsnd]
    have ihr := ih { st with uavAddresses := setAddr st.uavAddresses u p.2 }
      (fun q hq => hs q (List.mem_cons_of_mem p hq)) h0 hu
    exact ⟨ihr.1, ihr.2.1, by rw [ihr.2.2, List.foldl_cons]⟩

/-- C6: over any non-empty run of sightings carrying the same non-zero
source system `s`, exactly one handler is created for `s`: it is stored in
the directory, its drone id is `id_formatter(s, network_id)`, it is
registered with the application exactly once (at creation), and its
last-known address is the address of the most recent sighting
(last-write-wins).  A zero source system (a broadcast) creates and returns
nothing and leaves the state untouched. -/
theorem uav_creation_idempotent (fmt : Nat → String → String)
    (netId : String) (st0 : NetworkState) (s : Nat)
    (sightings : List (MAVLinkMessage × Addr))
    (hs : ∀ p ∈ sightings, p.1.srcSystem = s) (hne : sightings ≠ [])
    (h0 : s ≠ 0) (hu : lookupUav st0.uavs s = Option.none)
    (haddr : ∀ p ∈ st0.uavAddresses, p.1.systemId ≠ s) :
    (∃ u : UAV,
       lookupUav (processSightings fmt netId st0 sightings).uavs s =
         some u ∧
       u.uavId = fmt s netId ∧ u.systemId = s ∧ u.networkId = netId ∧
       (processSightings fmt netId st0 sightings).registry =
         st0.registry ++ [u] ∧
       lookupAddr (processSightings fmt netId st0 sightings).uavAddresses u =
         (sightings.map Prod.snd).getLast?) ∧
    (∀ (m : MAVLinkMessage) (a : Addr) (st : NetworkState),
       m.srcSystem = 0 →
       findUavFromMessage fmt netId st m a = (Option.none, st)) := by
  constructor
  · cases sightings with
    | nil => exact absurd rfl hne
    | cons p rest =>
      have hstep := findUav_creates fmt netId st0 p.1 p.2 s
        (hs p (List.mem_cons_self p rest)) h0 hu haddr
      have hsnd : (findUavFromMessage fmt netId st0 p.1 p.2).2 =
          { uavs := setUav st0.uavs s ⟨fmt s netId, netId, s, 1⟩,
            uavAddresses :=
              st0.uavAddresses ++ [(⟨fmt s netId, netId, s, 1⟩, p.2)],
            registry := st0.registry ++ [⟨fmt s netId, netId, s, 1⟩] } :=
        congrArg Prod.snd hstep
      have hu1 : lookupUav
          (setUav st0.uavs s (⟨fmt s netId, netId, s, 1⟩ : UAV)) s =
          some ⟨fmt s netId, netId, s, 1⟩ :=
        dictGet_dictSet_self st0.uavs s ⟨fmt s netId, netId, s, 1⟩
      have hrest := processSightings_existing fmt netId s
        ⟨fmt s netId, netId, s, 1⟩ rest
        { uavs := setUav st0.uavs s ⟨fmt s netId, netId, s, 1⟩,
          uavAddresses :=
            st0.uavAddresses ++ [(⟨fmt s netId, netId, s, 1⟩, p.2)],
          registry := st0.registry ++ [⟨fmt s netId, netId, s, 1⟩] }
        (fun q hq => hs q (List.mem_cons_of_mem p hq)) h0 hu1
      have hrun : processSightings fmt netId st0 (p :: rest) =
          processSightings fmt netId
            { uavs := setUav st0.uavs s ⟨fmt s netId, netId, s, 1⟩,
              uavAddresses :=
                st0.uavAddresses ++ [(⟨fmt s netId, netId, s, 1⟩, p.2)],
              registry := st0.registry ++ [⟨fmt s netId, netId, s, 1⟩] }
            rest := by
        unfold processSightings
        rw [List.foldl_cons, hsnd]
      refine ⟨⟨fmt s netId, netId, s, 1⟩, ?_, rfl, rfl, rfl, ?_, ?_⟩
      · rw [hrun, hrest.1]
        exact hu1
      · rw [hrun, hrest.2.1]
      · rw [hrun, hrest.2.2, lookupAddr_foldl_setAddr]
        have hinit : lookupAddr
            (st0.uavAddresses ++ [(⟨fmt s netId, netId, s, 1⟩, p.2)])
            ⟨fmt s netId, netId, s, 1⟩ = some p.2 := by
          unfold lookupAddr
          rw [dictGet_eq_map, List.find?_append,
            find?_addr_none st0.uavAddresses _ (fun q hq => haddr q hq),
            List.find?_cons_of_pos _ (by simp)]
          rfl
        rw [hinit, List.map_cons, getLast?_cons_or]
  · intro m a st hm
    simp only [findUavFromMessage]
    rw [if_pos (by simp [hm])]

/-- Witness for C6: two sightings of system 7 on an empty directory, and a
broadcast sighting. -/
theorem uav_creation_idempotent_witness :
    (∃ u : UAV,
       lookupUav
         (processSightings (fun _ netId => netId) "alpha" ⟨[], [], []⟩
           [(⟨"HEARTBEAT", 7, 1, []⟩, "addr1"),
            (⟨"SYS_STATUS", 7, 1, []⟩, "addr2")]).uavs 7 = some u ∧
       u.uavId = "alpha" ∧ u.systemId = 7 ∧ u.networkId = "alpha" ∧
       (processSightings (fun _ netId => netId) "alpha" ⟨[], [], []⟩
           [(⟨"HEARTBEAT", 7, 1, []⟩, "addr1"),
            (⟨"SYS_STATUS", 7, 1, []⟩, "addr2")]).registry = [] ++ [u] ∧
       lookupAddr
         (processSightings (fun _ netId => netId) "alpha" ⟨[], [], []⟩
           [(⟨"HEARTBEAT", 7, 1, []⟩, "addr1"),
            (⟨"SYS_STATUS", 7, 1, []⟩, "addr2")]).uavAddresses u =
         (([(⟨"HEARTBEAT", 7, 1, []⟩, "addr1"),
            (⟨"SYS_STATUS", 7, 1, []⟩,
             "addr2")] : List (MAVLinkMessage × Addr)).map
               Prod.snd).getLast?) ∧
    (∀ (m : MAVLinkMessage) (a : Addr) (st : NetworkState),
       m.srcSystem = 0 →
       findUavFromMessage (fun _ netId => netId) "alpha" st m a =
         (Option.none, st)) :=
  uav_creation_idempotent (fun _ netId => netId) "alpha" ⟨[], [], []⟩ 7
    [(⟨"HEARTBEAT", 7, 1, []⟩, "addr1"), (⟨"SYS_STATUS", 7, 1, []⟩, "addr2")]
    (by decide) (by decide) (by decide) rfl (by simp)

/-- The one-time warning text determines the type it was logged for. -/
theorem unhandledWarning_inj (a b : String)
    (h : unhandledWarning a = unhandledWarning b) : a = b := by
  unfold unhandledWarning at h
  have hdata := congrArg String.data h
  rw [String.data_append, String.data_append] at hdata
  exact String.ext (List.append_cancel_left hdata)

/-- `dictGet` over a concatenation prefers the left dictionary. -/
theorem dictGet_append {κ α : Type} [BEq κ] (l1 l2 : List (κ × α)) (k : κ) :
    dictGet (l1 ++ l2) k = (dictGet l1 k).or (dictGet l2 k) := by
  rw [dictGet_eq_map, dictGet_eq_map, dictGet_eq_map, List.find?_append]
  cases l1.find? (fun p => p.1 == k) <;> rfl

/-- The matcher fulfilments recorded for one message. -/
def fulfilmentsFor (st : DispatchState) (m : MAVLinkMessage) :
    List (Nat × MAVLinkMessage) :=
  (getMatchers st.matchers m.msgType).filterMap
    (fun e =>
      if matcherMatches e.systemId e.params m then some (e.future, m)
      else Option.none)

/-- A message from a non-autopilot component is skipped entirely. -/
theorem handleInbound_skip (st : DispatchState) (m : MAVLinkMessage)
    (h : m.srcComponent ≠ AUTOPILOT1) : handleInboundMessage st m = st := by
  simp only [handleInboundMessage, if_pos h]

/-- Dispatch step when the type has a handler: only fulfilments change. -/
theorem handleInbound_known (st : DispatchState) (m : MAVLinkMessage)
    (hd : Handler) (hcomp : m.srcComponent = AUTOPILOT1)
    (hl : lookupHandler st.handlers m.msgType = some hd) :
    handleInboundMessage st m =
      { st with fulfilled := st.fulfilled ++ fulfilmentsFor st m } := by
  obtain ⟨mts, hds, ws, fls⟩ := st
  simp only [handleInboundMessage, if_neg (not_not_intro hcomp),
    fulfilmentsFor] at hl ⊢
  rw [hl]

/-- Dispatch step when the type is unknown: one warning line is appended and
a silent no-op handler is installed for the type. -/
theorem handleInbound_unknown (st : DispatchState) (m : MAVLinkMessage)
    (hcomp : m.srcComponent = AUTOPILOT1)
    (hl : lookupHandler st.handlers m.msgType = Option.none) :
    handleInboundMessage st m =
      { matchers := st.matchers,
        handlers := st.handlers ++ [(m.msgType, Handler.nop)],
        warnings := st.warnings ++ [unhandledWarning m.msgType],
        fulfilled := st.fulfilled ++ fulfilmentsFor st m } := by
  obtain ⟨mts, hds, ws, fls⟩ := st
  simp only [handleInboundMessage, if_neg (not_not_intro hcomp),
    fulfilmentsFor] at hl ⊢
  rw [hl]

/-- Once a type is present in the handler table, the loop never logs the
unknown-type warning for it again, and the type stays present. -/
theorem dispatch_known_type_silent (ty : String) :
    ∀ (ms : List MAVLinkMessage) (st : DispatchState),
      (lookupHandler st.handlers ty).isSome = true →
      ((dispatchRun st ms).warnings.count (unhandledWarning ty) =
         st.warnings.count (unhandledWarning ty)) ∧
      (lookupHandler (dispatchRun st ms).handlers ty).isSome = true := by
  intro ms
  induction ms with
  | nil => intro st h; exact ⟨rfl, h⟩
  | cons m rest ih =>
    intro st h
    unfold dispatchRun at ih ⊢
    rw [List.foldl_cons]
    by_cases hcomp : m.srcComponent = AUTOPILOT1
    · cases hl : lookupHandler st.handlers m.msgType with
      | some hd =>
        rw [handleInbound_known st m hd hcomp hl]
        exact ih _ h
      | none =>
        have hmty : m.msgType ≠ ty := by
          intro hc
          rw [hc] at hl
          rw [hl] at h
          simp at h
        rw [handleInbound_unknown st m hcomp hl]
        have h' : (lookupHandler
            (st.handlers ++ [(m.msgType, Handler.nop)]) ty).isSome = true := by
          unfold lookupHandler at h ⊢
          rw [dictGet_append]
          obtain ⟨hd, hhd⟩ := Option.isSome_iff_exists.mp h
          rw [hhd]
          rfl
        have hcount : (st.warnings ++
            [unhandledWarning m.msgType]).count (unhandledWarning ty) =
            st.warnings.count (unhandledWarning ty) := by
          rw [List.count_append, List.count_cons, List.count_nil]
          have : (unhandledWarning m.msgType == unhandledWarning ty) =
              false :=
            beq_eq_false_iff_ne.mpr
              (fun hc => hmty (unhandledWarning_inj _ _ hc))
          rw [this]
          rfl
        have hih := ih
          { matchers := st.matchers,
            handlers := st.handlers ++ [(m.msgType, Handler.nop)],
            warnings := st.warnings ++ [unhandledWarning m.msgType],
            fulfilled := st.fulfilled ++ fulfilmentsFor st m } h'
        exact ⟨by rw [hih.1, hcount], hih.2⟩
    · rw [handleInbound_skip st m hcomp]
      exact ih st h

/-- Cumulative count of the unknown-type warning for one type over a run of
the dispatch loop starting with the type unknown: one more than before when
some autopilot-component message of that type occurs, unchanged otherwise. -/
theorem dispatch_unknown_type_count (ty : String) :
    ∀ (ms : List MAVLinkMessage) (st : DispatchState),
      lookupHandler st.handlers ty = Option.none →
      (dispatchRun st ms).warnings.count (unhandledWarning ty) =
        st.warnings.count (unhandledWarning ty) +
          (if ms.any (fun m =>
              m.msgType == ty && m.srcComponent == AUTOPILOT1)
           then 1 else 0) := by
  intro ms
  induction ms with
  | nil => intro st _; simp [dispatchRun]
  | cons m rest ih =>
    intro st hty
    unfold dispatchRun at ih ⊢
    rw [List.foldl_cons, List.any_cons]
    by_cases hcomp : m.srcComponent = AUTOPILOT1
    · cases hl : lookupHandler st.handlers m.msgType with
      | some hd =>
        have hmty : m.msgType ≠ ty := by
          intro hc
          rw [hc, hty] at hl
          cases hl
        have hpred : (m.msgType == ty && m.srcComponent == AUTOPILOT1) =
            false := by
          rw [beq_eq_false_iff_ne.mpr hmty]
          rfl
        rw [handleInbound_known st m hd hcomp hl, hpred, Bool.false_or]
        exact ih _ hty
      | none =>
        by_cases hmty : m.msgType = ty
        · have hpred : (m.msgType == ty && m.srcComponent == AUTOPILOT1) =
              true := by
            rw [beq_iff_eq.mpr hmty, beq_iff_eq.mpr hcomp]
            rfl
          rw [handleInbound_unknown st m hcomp hl, hpred, Bool.true_or,
            if_pos rfl]
          have hsome : (lookupHandler
              ((st.handlers ++ [(m.msgType, Handler.nop)])) ty).isSome =
              true := by
            unfold lookupHandler at hty ⊢
            rw [dictGet_append, hty, Option.none_or, hmty]
            rw [dictGet_cons_pos _ _ _ (by simp)]
            rfl
          have htail := dispatch_known_type_silent ty rest
            { matchers := st.matchers,
              handlers := st.handlers ++ [(m.msgType, Handler.nop)],
              warnings := st.warnings ++ [unhandledWarning m.msgType],
              fulfilled := st.fulfilled ++ fulfilmentsFor st m } hsome
          unfold dispatchRun at htail
          rw [htail.1]
          simp only [List.count_append, List.count_cons, List.count_nil,
            hmty, beq_self_eq_true]
          simp
        · have hpred : (m.msgType == ty && m.srcComponent == AUTOPILOT1) =
              false := by
            rw [beq_eq_false_iff_ne.mpr hmty]
            rfl
          rw [handleInbound_unknown st m hcomp hl, hpred, Bool.false_or]
          have hty' : lookupHandler
              (st.handlers ++ [(m.msgType, Handler.nop)]) ty =
              Option.none := by
            unfold lookupHandler at hty ⊢
            rw [dictGet_append, hty, Option.none_or,
              dictGet_cons_neg _ _ _ (beq_eq_false_iff_ne.mpr hmty)]
            rfl
          have hcount : (st.warnings ++
              [unhandledWarning m.msgType]).count (unhandledWarning ty) =
              st.warnings.count (unhandledWarning ty) := by
            rw [List.count_append, List.count_cons, List.count_nil]
            have : (unhandledWarning m.msgType == unhandledWarning ty) =
                false :=
              beq_eq_false_iff_ne.mpr
                (fun hc => hmty (unhandledWarning_inj _ _ hc))
            rw [this]
            rfl
          rw [ih _ hty', hcount]
    · have hpred : (m.msgType == ty && m.srcComponent == AUTOPILOT1) =
          false := by
        rw [Bool.and_eq_false_iff]
        exact Or.inr (beq_eq_false_iff_ne.mpr hcomp)
      rw [handleInbound_skip st m hcomp, hpred, Bool.false_or]
      exact ih st hty

/-- C7: running the dispatch loop from a state in which message type `ty`
has no registered handler (and no unknown-type warning for `ty` logged yet),
the warning for `ty` is logged exactly once when at least one
autopilot-component message of type `ty` is dispatched - by the first such
occurrence - and never again for later occurrences; with no occurrence it is
never logged. -/
theorem unknown_type_warned_once (ty : String) (ms : List MAVLinkMessage)
    (st0 : DispatchState)
    (hty : lookupHandler st0.handlers ty = Option.none)
    (hw : st0.warnings.count (unhandledWarning ty) = 0) :
    (dispatchRun st0 ms).warnings.count (unhandledWarning ty) =
      (if ms.any (fun m => m.msgType == ty && m.srcComponent == AUTOPILOT1)
       then 1 else 0) := by
  rw [dispatch_unknown_type_count ty ms st0 hty, hw, Nat.zero_add]

/-- Witness for C7: two `ODOMETRY` messages (a type absent from the handler
table) and one `HEARTBEAT` produce exactly one warning. -/
theorem unknown_type_warned_once_witness :
    (dispatchRun ⟨[], initialHandlers, [], []⟩
        [⟨"ODOMETRY", 7, 1, []⟩, ⟨"ODOMETRY", 8, 1, []⟩,
         ⟨"HEARTBEAT", 7, 1, []⟩]).warnings.count
        (unhandledWarning "ODOMETRY") =
      (if ([⟨"ODOMETRY", 7, 1, []⟩, ⟨"ODOMETRY", 8, 1, []⟩,
            ⟨"HEARTBEAT", 7, 1, []⟩] : List MAVLinkMessage).any
           (fun m => m.msgType == "ODOMETRY" && m.srcComponent == AUTOPILOT1)
       then 1 else 0) :=
  unknown_type_warned_once "ODOMETRY"
    [⟨"ODOMETRY", 7, 1, []⟩, ⟨"ODOMETRY", 8, 1, []⟩, ⟨"HEARTBEAT", 7, 1, []⟩]
    ⟨[], initialHandlers, [], []⟩ (by decide) rfl

end Skybrush
